import Mathlib

/-!
Shallow embedding of the media-capture subsystem in `src/sup/stream.py`
(classes `MediaStream`, `StreamManager`, `StreamingHandler`).

Conventions of the embedding:
* numpy images are modelled by their shape `(rows, cols, 3)` plus a content
  tag that external operations (`cv2.resize`, reads) carry along;
* `cv2.VideoCapture` objects are modelled by `Source`: an `opened` flag, the
  finite frame sequence (`CAP_PROP_FRAME_COUNT` is its length), the playback
  position (`CAP_PROP_POS_FRAMES`) and the source-reported `CAP_PROP_FPS`;
* `cv2.VideoCapture(url, backend)` is modelled by an environment function
  `env : Nat → Source` giving the object obtained when trying a backend;
* Python `x or d` truthiness on numbers treats `None` and `0` as falsy;
* log calls are recorded as an explicit event list;
* an uncaught Python exception is modelled by an explicit `raised` flag or an
  `Except.error` result.
-/

namespace Jovimetrix

/-- A decoded color image: numpy shape `(rows, cols, 3)` plus a content tag. -/
structure Img where
  rows : Nat
  cols : Nat
  tag : Nat
  deriving DecidableEq, Repr

/-- The numpy `.shape` of a frame (all frames in this code are 3-channel). -/
def Img.shape (i : Img) : Nat × Nat × Nat := (i.rows, i.cols, 3)

/-- Model of `cv2.resize(img, dsize)`: `dsize` is `(width, height)`, so the
result has `dsize.2` rows and `dsize.1` columns; content is preserved. -/
def cvResize (i : Img) (dsize : Nat × Nat) : Img := ⟨dsize.2, dsize.1, i.tag⟩

/-- Model of a `cv2.VideoCapture` object. -/
structure Source where
  opened : Bool
  frames : List Img
  pos : Nat
  fps : Nat
  deriving DecidableEq, Repr

/-- Result of `source.read()`. -/
structure ReadRes where
  ret : Bool
  frame : Option Img
  src : Source
  deriving DecidableEq, Repr

/-- `source.read()`: on an open source, returns the frame at the playback
position and advances it; past the end (or on a closed source) it fails. -/
def Source.read (s : Source) : ReadRes :=
  if s.opened then
    match s.frames[s.pos]? with
    | some f => ⟨true, some f, { s with pos := s.pos + 1 }⟩
    | none => ⟨false, none, s⟩
  else ⟨false, none, s⟩

/-- Python `x or d` on an optional integer (both `None` and `0` are falsy). -/
def pyOrI : Option Int → Int → Int
  | none, d => d
  | some v, d => if v = 0 then d else v

/-- Python `x or d` on a natural number argument (`None` and `0` falsy). -/
def pyOrN : Option Nat → Nat → Nat
  | none, d => d
  | some v, d => if v = 0 then d else v

/-- `int(np.clip(v, 0, 8192))`. -/
def clip8192 (v : Int) : Nat := (min (max v 0) 8192).toNat

/-- Log events emitted by `MediaStream` (loginfo / logwarn / logerr calls). -/
inductive Log where
  | captureInfo
  | capturedInfo
  | openFailErr
  | timeoutWarn
  | pausedWarn
  | releasedWarn
  deriving DecidableEq, Repr

/-- State of a `MediaStream` object. `size` is the private `__size`, stored by
the setter as `(height, width)`. `running` models the `__running` attribute,
which only ever comes into existence on the capture-failure path. -/
structure MediaStream where
  source : Option Source
  quit : Bool
  paused : Bool
  ret : Bool
  backend : List Nat
  frame : Img
  fps : Nat
  size : Nat × Nat
  url : Int ⊕ String
  mode : String
  running : Option Bool
  deriving DecidableEq, Repr

/-- The `size` property setter (stream.py lines 133-139): the whole tuple may
be `None` (replaced by `(512, 512)`), each component that is falsy (`None` or
`0`) is replaced by `512`, both are clipped to `[0, 8192]`, the result is
stored as `__size = (height, width)` and the cached frame is resized with
`dsize = __size`. -/
def MediaStream.setSize (st : MediaStream) (sz : Option (Option Int × Option Int)) :
    MediaStream :=
  let s := match sz with
    | none => ((some 512 : Option Int), (some 512 : Option Int))
    | some p => p
  let width := clip8192 (pyOrI s.1 512)
  let height := clip8192 (pyOrI s.2 512)
  { st with size := (height, width), frame := cvResize st.frame (height, width) }

/-- `int(url)` coercion attempted in `__init__`: a string that parses as an
integer becomes a device index. -/
def parseUrl : Int ⊕ String → Int ⊕ String
  | Sum.inl i => Sum.inl i
  | Sum.inr s =>
      match s.toInt? with
      | some i => Sum.inl i
      | none => Sum.inr s

/-- `MediaStream.__init__` (stream.py lines 22-45): paused, no source, backend
list `[backend] if backend else [cv2.CAP_ANY]` (with `cv2.CAP_ANY = 0`),
1×1 black placeholder frame, `__fps = fps or 60`, then the `size` setter runs
and the url is coerced. The background thread is started paused. -/
def MediaStream.init (url : Int ⊕ String) (size : Option (Option Int × Option Int))
    (fps : Option Nat) (mode : String) (backend : Option Nat) : MediaStream :=
  let st : MediaStream :=
    { source := none
      quit := false
      paused := true
      ret := false
      backend := match backend with
        | some b => if b = 0 then [0] else [b]
        | none => [0]
      frame := ⟨1, 1, 0⟩
      fps := pyOrN fps 60
      size := (0, 0)
      url := parseUrl url
      mode := mode
      running := none }
  MediaStream.setSize st size

/-- `MediaStream.isOpen` (stream.py lines 145-149). -/
def MediaStream.isOpen (st : MediaStream) : Bool :=
  match st.source with
  | none => false
  | some s => s.opened

/-- The backend loop inside `capture` (stream.py lines 104-108): `__source` is
overwritten with each `cv2.VideoCapture(url, x)` attempt; the loop stops at
the first attempt that `isOpened()`. Returns the final `__source` and `found`. -/
def tryOpen (env : Nat → Source) : List Nat → Option Source → Option Source × Bool
  | [], src => (src, false)
  | x :: rest, _ =>
      let s := env x
      if s.opened then (some s, true) else tryOpen env rest (some s)

/-- `self.__source.get(cv2.CAP_PROP_FPS)` on the `__source` left by the
backend loop (in the success branch it is never `none`). -/
def srcFpsOf : Option Source → Nat
  | some s => s.fps
  | none => 0

/-- `MediaStream.capture` (stream.py lines 96-118). The `size` and `fps`
parameters appear in the Python signature but are never read by the body.
On an already-open source it just unpauses. Otherwise it runs the backend
loop; on total failure it logs the CAPTURE FAIL error, sets `__running` and
returns; on success it sets `__fps = max(1, __fps or source-fps)` and
unpauses. No exception is raised on any path. -/
def MediaStream.capture (env : Nat → Source) (st : MediaStream)
    (size : Option (Option Int × Option Int)) (fps : Nat) : MediaStream × List Log :=
  if st.isOpen then ({ st with paused := false }, [])
  else if (tryOpen env st.backend st.source).2 then
    ({ st with
        source := (tryOpen env st.backend st.source).1,
        fps := max 1 (pyOrN (some st.fps) (srcFpsOf (tryOpen env st.backend st.source).1)),
        paused := false },
     [Log.captureInfo, Log.capturedInfo])
  else
    ({ st with
        source := (tryOpen env st.backend st.source).1,
        running := some false },
     [Log.captureInfo, Log.openFailErr])

/-- `MediaStream.pause` (stream.py lines 120-122). -/
def MediaStream.pause (st : MediaStream) : MediaStream × List Log :=
  ({ st with paused := true }, [Log.pausedWarn])

/-- `MediaStream.release` (stream.py lines 124-127): closes the underlying
capture object when one exists (the `cv2.VideoCapture` object is truthy). -/
def MediaStream.release (st : MediaStream) : MediaStream :=
  match st.source with
  | none => st
  | some s => { st with source := some { s with opened := false } }

/-- `MediaStream.frame` property (stream.py lines 141-143). -/
def MediaStream.frameProp (st : MediaStream) : Bool × Img := (st.ret, st.frame)

/-- Result of one iteration of the `__run` loop body: whether an uncaught
exception escaped, the resulting object state, and the logs emitted. -/
structure RunRes where
  raised : Bool
  st : MediaStream
  logs : List Log
  deriving DecidableEq, Repr

/-- One iteration of the `MediaStream.__run` while-loop body (stream.py lines
48-81), for a non-quit state; `now` is `time.time()` in seconds.

The local variable `timeout` is assigned `None` at the top of EVERY iteration
(line 50), so inside the failure branch it is still `None` when tested at line
73 (the success branch at line 59 also only re-assigns `None`); the embedding
keeps the full `if timeout is None / elif time.time() - timeout > 2` structure
of lines 72-78, bound to that per-iteration `None`.

When `__source` is `None`, `source.read()` raises `AttributeError`, which the
bare `except` catches (setting `__ret = False`); the subsequent
`self.__source.get(...)` at line 67 then raises uncaught (`raised = true`). -/
def runStep (env : Nat → Source) (now : Nat) (st : MediaStream) : RunRes :=
  if st.paused then ⟨false, st, []⟩
  else
    match st.source with
    | none => ⟨true, { st with ret := false }, []⟩
    | some s =>
        let r := s.read
        let st1 := { st with ret := r.ret, source := some r.src }
        match r.frame, r.ret with
        | some f, true =>
            let width := f.rows
            let height := f.cols
            let f2 := if width ≠ st1.size.2 ∨ height ≠ st1.size.1 then
                        cvResize f st1.size
                      else f
            ⟨false, { st1 with frame := f2 }, []⟩
        | _, _ =>
            let s2 := if r.ret then r.src
                      else if r.src.frames.length ≤ r.src.pos then { r.src with pos := 0 }
                      else r.src
            let st2 := { st1 with source := some s2 }
            if s2.opened then ⟨false, st2, []⟩
            else
              let timeout : Option Nat := none
              match timeout with
              | none => ⟨false, st2, []⟩
              | some t0 =>
                  if now - t0 > 2 then
                    let st3 := MediaStream.release st2
                    let c := MediaStream.capture env st3 none 60
                    ⟨false, c.1, Log.timeoutWarn :: c.2⟩
                  else ⟨false, st2, []⟩

/-- Several iterations of the `__run` loop at the given sequence of wall-clock
times; stops early if an iteration raises (the thread dies). -/
def runMany (env : Nat → Source) : List Nat → MediaStream → MediaStream × List Log
  | [], st => (st, [])
  | t :: ts, st =>
      let r := runStep env t st
      if r.raised then (r.st, r.logs)
      else
        let rest := runMany env ts r.st
        (rest.1, r.logs ++ rest.2)

/-- Keys of `StreamManager.STREAM`: the url passed in, an int or a string. -/
abbrev UrlKey := Int ⊕ String

/-- The `StreamManager.STREAM` class dictionary, as an association list. -/
abbrev Registry := List (UrlKey × MediaStream)

/-- `StreamManager.STREAM.get(url, None)`. -/
def lookupStream (reg : Registry) (k : UrlKey) : Option MediaStream :=
  match reg.find? (fun kv => decide (kv.1 = k)) with
  | some kv => some kv.2
  | none => none

/-- `StreamManager.pause` (stream.py lines 206-208), embedded exactly as
written: the guard is `if (stream := STREAM.get(url, None)) is None:` and the
branch body is `stream.pause()` — so the method call runs precisely when the
lookup returned `None`, raising `AttributeError` (modelled by `Except.error`);
when the stream exists the body is skipped and nothing at all happens. -/
def StreamManager.pause (reg : Registry) (k : UrlKey) : Except Unit Registry :=
  match lookupStream reg k with
  | none => Except.error ()
  | some _ => Except.ok reg

/-- `MediaStream(i)` followed by `stream.capture()`, as `devicescan` performs
for device index `i` when probing (`env i` is the backend environment for
that index). -/
def probeStream (env : Nat → Nat → Source) (i : Nat) : MediaStream :=
  (MediaStream.capture (env i)
    (MediaStream.init (Sum.inl (Int.ofNat i)) none none "FIT" none) none 60).1

/-- The `for i in range(5)` loop of `StreamManager.devicescan` (stream.py
lines 165-171). Returns the registry built so far and the list of indices on
which `stream.capture()` was invoked (the probed indices, in order). The loop
breaks — before registering the stream — at the first probed index whose
capture leaves the handle closed. -/
def scanLoop (env : Nat → Nat → Source) (cap : Bool) :
    List Nat → Registry → Registry × List Nat
  | [], reg => (reg, [])
  | i :: rest, reg =>
      if cap then
        if (probeStream env i).isOpen then
          ((scanLoop env cap rest
              (reg ++ [(Sum.inl (Int.ofNat i), probeStream env i)])).1,
           i :: (scanLoop env cap rest
              (reg ++ [(Sum.inl (Int.ofNat i), probeStream env i)])).2)
        else (reg, [i])
      else
        scanLoop env cap rest
          (reg ++ [(Sum.inl (Int.ofNat i),
            MediaStream.init (Sum.inl (Int.ofNat i)) none none "FIT" none)])

/-- `StreamManager.devicescan` (stream.py lines 155-177): clears the registry,
runs the probing loop over indices `0..4`, and — when `capture` was true —
releases every stream that remains registered. Returns the final registry and
the probed index list. -/
def StreamManager.devicescan (env : Nat → Nat → Source) (cap : Bool) :
    Registry × List Nat :=
  let r := scanLoop env cap [0, 1, 2, 3, 4] []
  (if cap then r.1.map (fun kv => (kv.1, MediaStream.release kv.2)) else r.1, r.2)

/-- Bytes and header writes performed by the HTTP handler. -/
inductive Wr where
  | statusLine (code : Nat)
  | header (name value : String)
  | endHeaders
  | blob (bytes : List Nat)
  deriving DecidableEq, Repr

/-- The raw bytes of an ASCII string literal written to the socket. -/
def strBytes (s : String) : List Nat := s.toList.map Char.toNat

/-- `self.__outputs.get(key, None)`: the endpoint table maps a path to the
endpoint's cached frame (`data['b']`, `None` until the refresh loop fills it). -/
def lookupOut (outputs : List (String × Option Img)) (k : String) :
    Option (Option Img) :=
  match outputs.find? (fun kv => decide (kv.1 = k)) with
  | some kv => some kv.2
  | none => none

/-- The unbounded `while True` streaming loop of `do_GET` (stream.py lines
224-236), given fuel: each pass with a cached frame JPEG-encodes it (`enc`
models `cv2.imencode`) and writes the boundary, part headers, payload and
trailing CRLF. -/
def streamBody (enc : Img → List Nat) (data : Option Img) : Nat → List Wr
  | 0 => []
  | n + 1 =>
      match data with
      | none => streamBody enc data n
      | some f =>
          let jpeg := enc f
          Wr.blob (strBytes "--frame\x0d\x0a") ::
          Wr.header "Content-Type" "image/jpeg" ::
          Wr.header "Content-Length" (toString jpeg.length) ::
          Wr.endHeaders ::
          Wr.blob jpeg ::
          Wr.blob (strBytes "\x0d\x0a") ::
          streamBody enc data n

/-- `StreamingHandler.do_GET` (stream.py lines 215-236): lowercases the
request path; when the endpoint table has no entry for it, returns having
written nothing at all; otherwise writes the 200 status, the multipart
header, and streams parts. Returns the full write sequence. -/
def do_GET (enc : Img → List Nat) (outputs : List (String × Option Img))
    (path : String) (fuel : Nat) : List Wr :=
  match lookupOut outputs path.toLower with
  | none => []
  | some data =>
      Wr.statusLine 200 ::
      Wr.header "Content-Type" "multipart/x-mixed-replace; boundary=frame" ::
      Wr.endHeaders ::
      streamBody enc data fuel

/-! ### Concrete demonstration objects -/

/-- A freshly-constructed `MediaStream(0)` with all defaults. -/
def demoStream : MediaStream := MediaStream.init (Sum.inl 0) none none "FIT" none

/-- A capture object that opens successfully and reports 30 fps. -/
def openSrc : Source := ⟨true, [], 0, 30⟩

/-- An environment in which every backend opens `openSrc`. -/
def envOpen : Nat → Source := fun _ => openSrc

/-- An environment in which no backend ever opens (e.g. a host with no
cameras); the returned capture object reports fps 0. -/
def envClosed : Nat → Source := fun _ => ⟨false, [], 0, 0⟩

/-- `demoStream` after a successful `capture()`: open and unpaused. -/
def demoOpenStream : MediaStream := (MediaStream.capture envOpen demoStream none 60).1

/-! ### Helper lemmas -/

theorem clip8192_pyOrI (w : Int) (hw0 : 0 ≤ w) (hw : w ≤ 8192) :
    clip8192 (pyOrI (some w) 512) = if w = 0 then 512 else w.toNat := by
  simp only [pyOrI, clip8192]
  split_ifs <;> omega

theorem setSize_frame_shape (st : MediaStream) (w h : Option Int) :
    ((MediaStream.setSize st (some (w, h))).frame).shape =
      (clip8192 (pyOrI w 512), clip8192 (pyOrI h 512), 3) := by
  simp [MediaStream.setSize, cvResize, Img.shape]

theorem setSize_size (st : MediaStream) (w h : Option Int) :
    (MediaStream.setSize st (some (w, h))).size =
      (clip8192 (pyOrI h 512), clip8192 (pyOrI w 512)) := by
  simp [MediaStream.setSize]

theorem tryOpen_fail_of_all_closed (env : Nat → Source) (l : List Nat)
    (s0 : Option Source) (h : ∀ b ∈ l, (env b).opened = false) :
    (tryOpen env l s0).2 = false := by
  induction l generalizing s0 with
  | nil => rfl
  | cons x rest ih =>
      have hx : (env x).opened = false := h x (by simp)
      simp only [tryOpen, hx, Bool.false_eq_true, if_false]
      exact ih (some (env x)) (fun b hb => h b (by simp [hb]))

theorem tryOpen_src_closed_of_fail (env : Nat → Source) (l : List Nat)
    (s0 : Option Source) (h0 : ∀ s, s0 = some s → s.opened = false)
    (hfail : (tryOpen env l s0).2 = false) :
    ∀ s, (tryOpen env l s0).1 = some s → s.opened = false := by
  induction l generalizing s0 with
  | nil => exact h0
  | cons x rest ih =>
      by_cases hx : (env x).opened = true
      · simp [tryOpen, hx] at hfail
      · simp only [Bool.not_eq_true] at hx
        simp only [tryOpen, hx, Bool.false_eq_true, if_false] at hfail ⊢
        exact ih (some (env x))
          (fun s hs => by cases hs; exact hx) hfail

theorem init_source (url : Int ⊕ String) (sz : Option (Option Int × Option Int))
    (fps : Option Nat) (mode : String) (be : Option Nat) :
    (MediaStream.init url sz fps mode be).source = none := by
  simp [MediaStream.init, MediaStream.setSize]

theorem init_fps (url : Int ⊕ String) (sz : Option (Option Int × Option Int))
    (fps : Option Nat) (mode : String) (be : Option Nat) :
    (MediaStream.init url sz fps mode be).fps = pyOrN fps 60 := by
  simp [MediaStream.init, MediaStream.setSize]

theorem pyOrN_sixty_ne_zero (fps : Option Nat) : pyOrN fps 60 ≠ 0 := by
  cases fps with
  | none => simp [pyOrN]
  | some v => simp only [pyOrN]; split <;> omega

/-- On a handle that is not yet open, `capture()` with a backend list that
never opens leaves every field except `source`/`running` alone, and in
particular ends with the handle still closed and exactly the CAPTURE / CAPTURE
FAIL logs. -/
theorem capture_fail_shape (env : Nat → Source) (st : MediaStream)
    (sz : Option (Option Int × Option Int)) (f : Nat)
    (hclosed : st.isOpen = false)
    (hfail : (tryOpen env st.backend st.source).2 = false) :
    MediaStream.capture env st sz f =
      ({ st with
          source := (tryOpen env st.backend st.source).1,
          running := some false },
       [Log.captureInfo, Log.openFailErr]) := by
  simp [MediaStream.capture, hclosed, hfail]

/-! ### Claim theorems -/

/-- C2 counterexample: assigning `(w, h) = (1, 2)` to the size property gives
a cached frame of numpy shape `(1, 2, 3)`, not `(h, w, 3) = (2, 1, 3)` as the
claim states — the setter stores `__size = (height, width)` and passes it as
the `cv2.resize` dsize, whose axes are `(width, height)`, so the two
transpositions compose to shape `(w, h, 3)`. -/
theorem jovi_c2_cex :
    ((MediaStream.setSize demoStream (some (some 1, some 2))).frame).shape ≠
      ((2 : Nat), (1 : Nat), (3 : Nat)) := by
  decide

/-- C2 (amended): for `0 ≤ w, h ≤ 8192`, assigning `(w, h)` to the size
property immediately resizes the cached frame to numpy shape `(w', h', 3)`
where a zero component is first replaced by the default 512. -/
theorem jovi_c2_amended (st : MediaStream) (w h : Int)
    (hw0 : 0 ≤ w) (hw : w ≤ 8192) (hh0 : 0 ≤ h) (hh : h ≤ 8192) :
    ((MediaStream.setSize st (some (some w, some h))).frame).shape =
      ((if w = 0 then 512 else w.toNat), (if h = 0 then 512 else h.toNat), 3) := by
  rw [setSize_frame_shape, clip8192_pyOrI w hw0 hw, clip8192_pyOrI h hh0 hh]

/-- Witness for C2 (amended) at `(w, h) = (3, 5)`. -/
theorem jovi_c2_amended_w :
    ((MediaStream.setSize demoStream (some (some 3, some 5))).frame).shape =
      ((if (3 : Int) = 0 then 512 else (3 : Int).toNat),
       (if (5 : Int) = 0 then 512 else (5 : Int).toNat), 3) :=
  jovi_c2_amended demoStream 3 5 (by decide) (by decide) (by decide) (by decide)

/-- C3: `StreamManager.pause` inverts its guard. On a missing id the walrus
lookup yields `None` and the branch body `stream.pause()` runs on `None`,
raising `AttributeError` (`Except.error`); on a present id the branch is
skipped, so the stream's `pause()` is never invoked and its paused flag stays
`false`. This refutes both halves of the claim (missing id ⇒ no-op; present
id ⇒ paused). -/
theorem jovi_c3_pause_defect :
    StreamManager.pause [] (Sum.inl 0) = Except.error () ∧
    StreamManager.pause [((Sum.inl 0 : UrlKey), demoOpenStream)] (Sum.inl 0) =
      Except.ok [((Sum.inl 0 : UrlKey), demoOpenStream)] ∧
    demoOpenStream.paused = false :=
  ⟨rfl, rfl, rfl⟩

/-- C8: a GET whose lowercased path is not in the endpoint table produces an
empty write sequence — no status line, no 404, zero response bytes. -/
theorem jovi_c8_unmapped_no_bytes (enc : Img → List Nat)
    (outputs : List (String × Option Img)) (path : String) (fuel : Nat)
    (hmiss : lookupOut outputs path.toLower = none) :
    do_GET enc outputs path fuel = [] := by
  simp [do_GET, hmiss]

/-- Witness for C8: an empty endpoint table, asked for `/video.mjpg`. -/
theorem jovi_c8_unmapped_no_bytes_w :
    do_GET (fun _ => []) [] "/video.mjpg" 7 = [] :=
  jovi_c8_unmapped_no_bytes (fun _ => []) [] "/video.mjpg" 7 rfl

/-- C9: `capture()` ignores both of its parameters — the result is literally
independent of the `size`/`fps` arguments, and the stored target size is
unchanged by the call (the fps field is derived from the state alone). -/
theorem jovi_c9_capture_ignores_args (env : Nat → Source) (st : MediaStream)
    (s1 s2 : Option (Option Int × Option Int)) (f1 f2 : Nat) :
    MediaStream.capture env st s1 f1 = MediaStream.capture env st s2 f2 ∧
    (MediaStream.capture env st s1 f1).1.size = st.size := by
  refine ⟨rfl, ?_⟩
  unfold MediaStream.capture
  split
  · rfl
  · split <;> rfl

/-- C10: in the size setter each falsy component (`None` or `0`) becomes the
default 512 before clamping — `(0, 0)` and `None` both store a 512×512 target
(`__size = (height, width)`), a negative component is clamped up to a stored
0, and a stored 0 in either axis can only come from a negative input
component. -/
theorem jovi_c10_falsy_size (st : MediaStream) :
    (MediaStream.setSize st (some (some 0, some 0))).size = (512, 512) ∧
    (MediaStream.setSize st none).size = (512, 512) ∧
    (MediaStream.setSize st (some (some (-1), some 5))).size.2 = 0 ∧
    ∀ wo ho : Option Int,
      ((MediaStream.setSize st (some (wo, ho))).size.2 = 0 →
        ∃ v, wo = some v ∧ v < 0) ∧
      ((MediaStream.setSize st (some (wo, ho))).size.1 = 0 →
        ∃ v, ho = some v ∧ v < 0) := by
  refine ⟨by simp [MediaStream.setSize, pyOrI, clip8192],
          by simp [MediaStream.setSize, pyOrI, clip8192],
          by simp [MediaStream.setSize, pyOrI, clip8192],
          ?_⟩
  intro wo ho
  constructor
  · intro hz
    rw [setSize_size] at hz
    cases wo with
    | none => simp [pyOrI, clip8192] at hz
    | some v =>
        refine ⟨v, rfl, ?_⟩
        by_cases hv : v = 0
        · simp [pyOrI, hv, clip8192] at hz
        · simp only [pyOrI, hv, if_false, clip8192] at hz
          omega
  · intro hz
    rw [setSize_size] at hz
    cases ho with
    | none => simp [pyOrI, clip8192] at hz
    | some v =>
        refine ⟨v, rfl, ?_⟩
        by_cases hv : v = 0
        · simp [pyOrI, hv, clip8192] at hz
        · simp only [pyOrI, hv, if_false, clip8192] at hz
          omega

/-- No iteration of the `__run` body ever logs: in particular the
`[MediaStream] TIMEOUT` warning (and the reopening `capture()` behind it) is
unreachable, because the stall timer `timeout` is re-initialized to `None` at
the top of every iteration, so the `elif time.time() - timeout > 2` test can
never be reached with a non-`None` timer. -/
theorem runStep_logs_nil (env : Nat → Source) (now : Nat) (st : MediaStream) :
    (runStep env now st).logs = [] := by
  unfold runStep
  split
  · rfl
  · split
    · rfl
    · dsimp only
      repeat' split
      all_goals rfl

/-- C1: over every execution of the polling loop — any environment, any
sequence of iteration times, any starting state, hence in particular any run
with more than 2 seconds of continuous read failure on a not-open source —
the TIMEOUT release-and-reopen step never occurs. -/
theorem jovi_c1_no_reopen (env : Nat → Source) (times : List Nat)
    (st : MediaStream) :
    Log.timeoutWarn ∉ (runMany env times st).2 := by
  induction times generalizing st with
  | nil => simp [runMany]
  | cons t ts ih =>
      simp only [runMany]
      split
      · simp [runStep_logs_nil]
      · simp only [List.mem_append, runStep_logs_nil, List.not_mem_nil, false_or]
        exact ih (runStep env t st).st

/-- C5: when no backend in the preference list opens the source, `capture()`
logs exactly one OpenFailure error, leaves the handle closed (`isOpen` stays
false), and returns normally (the embedding of this path is a total function:
no exception propagates to the caller). -/
theorem jovi_c5_open_failure (env : Nat → Source) (st : MediaStream)
    (sz : Option (Option Int × Option Int)) (f : Nat)
    (hclosed : st.isOpen = false)
    (hall : ∀ b ∈ st.backend, (env b).opened = false) :
    (MediaStream.capture env st sz f).2.count Log.openFailErr = 1 ∧
    (MediaStream.capture env st sz f).1.isOpen = false := by
  have hfail := tryOpen_fail_of_all_closed env st.backend st.source hall
  have h0 : ∀ s, st.source = some s → s.opened = false := by
    intro s hs
    simpa [MediaStream.isOpen, hs] using hclosed
  have hc := tryOpen_src_closed_of_fail env st.backend st.source h0 hfail
  rw [capture_fail_shape env st sz f hclosed hfail]
  refine ⟨rfl, ?_⟩
  cases hr : (tryOpen env st.backend st.source).1 with
  | none => simp [MediaStream.isOpen, hr]
  | some s => simp [MediaStream.isOpen, hr, hc s hr]

/-- Witness for C5: a fresh `MediaStream(0)` captured on a host where no
backend opens anything. -/
theorem jovi_c5_open_failure_w :
    (MediaStream.capture envClosed demoStream none 60).2.count Log.openFailErr = 1 ∧
    (MediaStream.capture envClosed demoStream none 60).1.isOpen = false :=
  jovi_c5_open_failure envClosed demoStream none 60 rfl (by decide)

/-- When `__fps` is nonzero (as it always is after `__init__`), a `capture()`
call that ends with the handle open sets `__fps = max(1, __fps)`: the
truthiness short-circuit `self.__fps or self.__source.get(cv2.CAP_PROP_FPS)`
never reaches the source-reported rate. -/
theorem capture_fps_of_open (env : Nat → Source) (st : MediaStream)
    (sz : Option (Option Int × Option Int)) (f : Nat)
    (hclosed : st.isOpen = false) (hfz : st.fps ≠ 0)
    (hopen : ((MediaStream.capture env st sz f).1).isOpen = true) :
    ((MediaStream.capture env st sz f).1).fps = max 1 st.fps := by
  by_cases htry : (tryOpen env st.backend st.source).2 = true
  · simp only [MediaStream.capture, hclosed, Bool.false_eq_true, if_false, htry, if_true]
    simp [pyOrN, hfz]
  · simp only [Bool.not_eq_true] at htry
    rw [capture_fail_shape env st sz f hclosed htry] at hopen
    have h0 : ∀ s, st.source = some s → s.opened = false := by
      intro s hs
      simpa [MediaStream.isOpen, hs] using hclosed
    have hc := tryOpen_src_closed_of_fail env st.backend st.source h0 htry
    exfalso
    cases hr : (tryOpen env st.backend st.source).1 with
    | none => simp [MediaStream.isOpen, hr] at hopen
    | some s => simp [MediaStream.isOpen, hr, hc s hr] at hopen

/-- An environment whose capture objects open and report 30 fps. -/
def env30 : Nat → Source := fun _ => ⟨true, [], 0, 30⟩

/-- C4 counterexample: a handle constructed WITHOUT an explicit fps, captured
from a source that opens and reports 30 fps, ends with effective fps 60 (the
construction-time default), not the source-reported rate floored at 1
(`max 1 30 = 30`) that the claim prescribes: `__init__` sets
`__fps = fps or 60`, which is always truthy, so `capture()`'s
`self.__fps or self.__source.get(cv2.CAP_PROP_FPS)` never reads the source. -/
theorem jovi_c4_cex :
    ((MediaStream.capture env30
        (MediaStream.init (Sum.inl 0) none none "FIT" none) none 60).1).fps = 60 ∧
    ((MediaStream.capture env30
        (MediaStream.init (Sum.inl 0) none none "FIT" none) none 60).1).fps ≠
      max 1 30 := by
  refine ⟨rfl, ?_⟩
  decide

/-- C4 (amended): for every handle built by `__init__`, a `capture()` call
that ends with the handle open sets the effective fps to
`max(1, fps-argument or 60)`; the source-reported rate is never consulted,
because the construction-time `or 60` default makes `__fps` always truthy. -/
theorem jovi_c4_amended (url : Int ⊕ String) (sz : Option (Option Int × Option Int))
    (fps : Option Nat) (be : Option Nat) (env : Nat → Source)
    (sz2 : Option (Option Int × Option Int)) (f2 : Nat)
    (hopen : ((MediaStream.capture env
        (MediaStream.init url sz fps "FIT" be) sz2 f2).1).isOpen = true) :
    ((MediaStream.capture env
        (MediaStream.init url sz fps "FIT" be) sz2 f2).1).fps =
      max 1 (pyOrN fps 60) := by
  have h := capture_fps_of_open env (MediaStream.init url sz fps "FIT" be) sz2 f2
    (by simp [MediaStream.isOpen, init_source])
    (by rw [init_fps]; exact pyOrN_sixty_ne_zero fps)
    hopen
  rwa [init_fps] at h

/-- Witness for C4 (amended): the fps-less handle of the counterexample. -/
theorem jovi_c4_amended_w :
    ((MediaStream.capture env30
        (MediaStream.init (Sum.inl 0) none none "FIT" none) none 60).1).fps =
      max 1 (pyOrN none 60) :=
  jovi_c4_amended (Sum.inl 0) none none none env30 none 60 rfl

theorem release_isOpen_false (st : MediaStream) :
    (MediaStream.release st).isOpen = false := by
  cases hs : st.source <;> simp [MediaStream.release, MediaStream.isOpen, hs]

/-- The handle probed for index `i` is open exactly when the default backend
(`cv2.CAP_ANY`, index 0) opens device `i`. -/
theorem probeStream_isOpen (env : Nat → Nat → Source) (i : Nat) :
    (probeStream env i).isOpen = (env i 0).opened := by
  by_cases h : (env i 0).opened = true <;>
    simp [probeStream, MediaStream.capture, MediaStream.init, MediaStream.setSize,
      MediaStream.isOpen, tryOpen, parseUrl, h]

theorem scanLoop_probed_front (env : Nat → Nat → Source) (idxs : List Nat) :
    ∀ reg : Registry, (scanLoop env true idxs reg).2 <+: idxs := by
  induction idxs with
  | nil => intro reg; simp [scanLoop]
  | cons i rest ih =>
      intro reg
      by_cases h : (probeStream env i).isOpen = true
      · simp only [scanLoop, if_true, h]
        obtain ⟨t, ht⟩ := ih (reg ++ [(Sum.inl (Int.ofNat i), probeStream env i)])
        exact ⟨t, by rw [List.cons_append, ht]⟩
      · simp only [scanLoop, if_true, h, Bool.false_eq_true, if_false]
        exact ⟨rest, rfl⟩

/-- C6: for a finite source whose playback position has reached the reported
frame count, a failing read in the polling loop (i) raises nothing, (ii)
seeks the source back to position 0, and (iii) the next iteration's read
succeeds and buffers the content of frame 0 — end-of-stream is absorbed, not
surfaced. -/
theorem jovi_c6_eos_loop (env : Nat → Source) (t1 t2 : Nat) (st : MediaStream)
    (s : Source) (f0 : Img)
    (hp : st.paused = false) (hs : st.source = some s) (ho : s.opened = true)
    (hpos : s.frames.length ≤ s.pos) (hf : s.frames[0]? = some f0) :
    (runStep env t1 st).raised = false ∧
    (runStep env t1 st).st.source = some { s with pos := 0 } ∧
    (runStep env t2 (runStep env t1 st).st).st.ret = true ∧
    (runStep env t2 (runStep env t1 st).st).st.frame.tag = f0.tag := by
  have hread : s.read = ⟨false, none, s⟩ := by
    simp [Source.read, ho, List.getElem?_eq_none hpos]
  have h1 : runStep env t1 st =
      ⟨false, { st with ret := false, source := some { s with pos := 0 } }, []⟩ := by
    simp [runStep, hp, hs, hread, hpos, ho]
  have hread2 : Source.read { s with pos := 0 } = ⟨true, some f0, { s with pos := 1 }⟩ := by
    simp [Source.read, ho, hf]
  refine ⟨by rw [h1], by rw [h1], ?_, ?_⟩
  · rw [h1]
    simp [runStep, hp, hread2]
  · rw [h1]
    simp only [runStep, hp, Bool.false_eq_true, if_false, hread2]
    split <;> simp [cvResize]

/-- The source and state of the C6 witness: a one-frame file source whose
position sits at the frame count. -/
def eosSrc : Source := ⟨true, [⟨1, 1, 7⟩], 1, 30⟩

def eosStream : MediaStream :=
  { source := some eosSrc
    quit := false
    paused := false
    ret := true
    backend := [0]
    frame := ⟨512, 512, 0⟩
    fps := 30
    size := (512, 512)
    url := Sum.inl 0
    mode := "FIT"
    running := none }

/-- Witness for C6: the one-frame source at end of stream loops back and the
next read rebuffers frame 0 (content tag 7). -/
theorem jovi_c6_eos_loop_w :
    (runStep envOpen 3 eosStream).raised = false ∧
    (runStep envOpen 3 eosStream).st.source = some { eosSrc with pos := 0 } ∧
    (runStep envOpen 4 (runStep envOpen 3 eosStream).st).st.ret = true ∧
    (runStep envOpen 4 (runStep envOpen 3 eosStream).st).st.frame.tag =
      (Img.mk 1 1 7).tag :=
  jovi_c6_eos_loop envOpen 3 4 eosStream eosSrc ⟨1, 1, 7⟩ rfl rfl rfl
    (by decide) rfl

/-- C7: `devicescan(probe=true)` probes device indices in order starting at 0
and the probed list is always an initial segment of `[0, 1, 2, 3, 4]` (so at
most indices 0..4 are ever probed); every handle remaining registered after
the scan has been released (is closed); and when index 0 fails to open — a
host with zero cameras — only index 0 is probed. -/
theorem jovi_c7_devicescan (env : Nat → Nat → Source) :
    (StreamManager.devicescan env true).2 <+: [0, 1, 2, 3, 4] ∧
    (∀ kv ∈ (StreamManager.devicescan env true).1, kv.2.isOpen = false) ∧
    ((env 0 0).opened = false → (StreamManager.devicescan env true).2 = [0]) := by
  refine ⟨?_, ?_, ?_⟩
  · simpa [StreamManager.devicescan] using
      scanLoop_probed_front env [0, 1, 2, 3, 4] []
  · intro kv hkv
    simp only [StreamManager.devicescan, if_true, List.mem_map] at hkv
    obtain ⟨kv', _, rfl⟩ := hkv
    exact release_isOpen_false kv'.2
  · intro h0
    have hps : (probeStream env 0).isOpen = false := by
      rw [probeStream_isOpen]; exact h0
    simp [StreamManager.devicescan, scanLoop, hps]

/-- An environment with zero cameras: no device index opens on any backend. -/
def envNoCam : Nat → Nat → Source := fun _ _ => ⟨false, [], 0, 0⟩

/-- Witness for C7: scanning a host with zero cameras probes only index 0. -/
theorem jovi_c7_devicescan_w :
    (StreamManager.devicescan envNoCam true).2 = [0] :=
  (jovi_c7_devicescan envNoCam).2.2 rfl

/-- Witness for C10: `(0, 0)` stores a 512×512 target, and the inner
implication applied at input `(-3, 5)` (whose stored width is 0) recovers the
negative component. -/
theorem jovi_c10_falsy_size_w :
    (MediaStream.setSize demoStream (some (some 0, some 0))).size = (512, 512) ∧
    ∃ v, (some (-3) : Option Int) = some v ∧ v < 0 :=
  ⟨(jovi_c10_falsy_size demoStream).1,
   ((jovi_c10_falsy_size demoStream).2.2.2 (some (-3)) (some 5)).1 (by decide)⟩

end Jovimetrix
